import Mathlib

/-!
Shallow embedding of the smart-contract deployment orchestrator:
the Ethereum client (`DeployContract`, `GetTransactionStatus`,
`VerifyContractSource` in package `eth`) and the chain-ID defaulting of the
contract service (`Service.DeployContract` in package `contracts`).

External interactions (compiler toolchain, chain RPC node, key manager,
ABI encoder) are modelled by an environment record holding the outcome of
each call; the functions below mirror the Go control flow over those
outcomes.  Bytes are `Nat`, big-integer chain quantities are `Nat`/`Int`,
the `big.Float` cost arithmetic is embedded as exact rationals, and the
`uint64` confirmation subtraction is taken modulo `2 ^ 64`.
-/

namespace Eth

/-- A compiled contract artifact: the creation bytecode produced by the
Solidity toolchain (`solc.Contract`, with `common.FromHex(contract.Code)`
already applied).  The ABI definition is opaque to this embedding. -/
structure Artifact where
  code : List Nat
  deriving Repr, DecidableEq

/-- Mirror of `types.DeploymentRequest` as consumed by
`Client.DeployContract`: source text, JSON-encoded constructor arguments,
chain-ID hint (Go `int`), gas limit, and the optional
`Metadata["contractName"]` hint. -/
structure DeploymentRequest where
  contractCode : String
  constructorArguments : String
  chainID : Int
  gasLimit : Nat
  metadataContractName : Option String
  deriving Repr, DecidableEq

/-- Mirror of `eth.DeploymentResult`.  `gasPrice` is `none` when the Go
field is a nil `*big.Int` (the hash-only timeout result); `cost` embeds
the `big.Float` ETH figure as an exact rational. -/
structure DeploymentResult where
  txHash : String
  contractAddress : String
  blockNumber : Nat
  gasUsed : Nat
  gasPrice : Option Nat
  cost : ℚ
  deriving Repr, DecidableEq

/-- Mirror of `eth.TransactionStatus`. -/
structure TransactionStatus where
  status : String
  blockNumber : Nat
  confirmations : Nat
  gasUsed : Nat
  cost : ℚ
  deriving Repr, DecidableEq

/-- A mined transaction receipt (`types.Receipt`): outcome flag
(`1` = success), inclusion block, gas used, created contract address. -/
structure Receipt where
  status : Nat
  blockNumber : Nat
  gasUsed : Nat
  contractAddress : String
  deriving Repr, DecidableEq

/-- The observable external steps `DeployContract` performs, in order.
`signTx` records the contract-creation transaction's parameters: nonce,
gas limit, gas price, payload bytes, and the EIP-155 chain ID bound into
the signature. -/
inductive Effect where
  | compileC (source : String)
  | getKey
  | getNonce
  | getGasPrice
  | signTx (nonce gasLimit gasPrice : Nat) (payload : List Nat) (chainId : Int)
  | sendTx
  | waitReceipt
  deriving Repr, DecidableEq

/-- Outcomes of every external call `DeployContract` makes, plus the
connector's startup-resolved chain ID (`Client.chainID`) and the signed
transaction's hash digits (`Hash().Hex()` is `"0x"` followed by hex
digits, so the hash string is materialised as `"0x" ++ txHashHex`). -/
structure DeployEnv where
  compileResult : Except String (List (String × Artifact))
  abiParse : Except String Unit
  privateKey : Except String Unit
  pendingNonce : Except String Nat
  suggestGasPrice : Except String Nat
  parsedArgs : Except String (List String)
  packedArgs : Except String (List Nat)
  signOk : Except String Unit
  sendOk : Except String Unit
  waitMined : Except String Receipt
  txHashHex : String
  connectorChainId : Int

/-- Substring test matching Go `strings.Contains(l, sub)` on character
lists: `sub` occurs contiguously inside `l` (case-sensitive). -/
def listContainsSub (sub : List Char) : List Char → Bool
  | [] => sub.isEmpty
  | c :: t => sub.isPrefixOf (c :: t) || listContainsSub sub t

/-- Go `strings.Contains(s, sub)`. -/
def containsSub (s sub : String) : Bool :=
  listContainsSub sub.toList s.toList

/-- The name hint `DeployContract` reads from `req.Metadata["contractName"]`
(empty string when absent). -/
def hintOf (req : DeploymentRequest) : String :=
  req.metadataContractName.getD ""

/-- Artifact selection in `DeployContract` (part_002 lines 198-227): with a
nonempty hint, the first artifact (in toolchain iteration order) whose name
contains the hint as a case-sensitive substring; otherwise, or when no name
matches, the first artifact of the iteration order. -/
def selectContract (hint : String) (cs : List (String × Artifact)) :
    Option (String × Artifact) :=
  if hint = "" then cs.head?
  else
    match cs.find? (fun p => containsSub p.1 hint) with
    | some p => some p
    | none => cs.head?

/-- Chain-ID resolution in `Client.DeployContract` (part_002 lines 252-255):
the caller's hint unless it is zero, in which case the connector's
startup-resolved chain ID. -/
def resolveChainId (reqChainId connectorChainId : Int) : Int :=
  if reqChainId = 0 then connectorChainId else reqChainId

/-- Chain-ID defaulting in `Service.DeployContract`
(service.go lines 315-319): a zero request chain ID is replaced by `1`
(Ethereum mainnet) before the eth client is invoked. -/
def serviceChainId (reqChainId : Int) : Int :=
  if reqChainId = 0 then 1 else reqChainId

/-- Payload construction in `DeployContract` (part_002 lines 297-309): with
at least one constructor argument the ABI encoding is appended to the
bytecode, otherwise the bytecode is used unchanged. -/
def buildPayload (bytecode : List Nat) (args : List String) (enc : List Nat) :
    List Nat :=
  if args.length > 0 then bytecode ++ enc else bytecode

/-- ETH cost computed on the deploy receipt path (part_002 lines 337-348):
`gasPrice × gasUsed` wei scaled down by `10 ^ 18`, with the `big.Float`
arithmetic embedded exactly in `ℚ`. -/
def deployCostEth (gasPrice gasUsed : Nat) : ℚ :=
  (gasPrice * gasUsed : ℚ) / 10 ^ 18

/-- ETH cost computed in `GetTransactionStatus` (part_002 lines 418-430):
`gasPrice × gasUsed` wei scaled down by `10 ^ 18`, with the `big.Float`
arithmetic embedded exactly in `ℚ`. -/
def statusCostEth (gasPrice gasUsed : Nat) : ℚ :=
  (gasPrice * gasUsed : ℚ) / 10 ^ 18

/-- Go `uint64` subtraction `a - b` (wrapping modulo `2 ^ 64`), for
operands already reduced below `2 ^ 64`. -/
def u64sub (a b : Nat) : Nat :=
  (2 ^ 64 + a - b) % 2 ^ 64

/-- Constructor-argument parsing in `DeployContract` (part_002 lines
287-295): an empty argument string yields no arguments without consulting
the JSON decoder, otherwise the decoder's outcome is used. -/
def parseCtorArgs (env : DeployEnv) (req : DeploymentRequest) :
    Except String (List String) :=
  if req.constructorArguments = "" then .ok [] else env.parsedArgs

/-- ABI encoding of constructor arguments (part_002 lines 301-305): the
encoder is invoked only when at least one argument was parsed. -/
def encodeCtorArgs (env : DeployEnv) (args : List String) :
    Except String (List Nat) :=
  if args.length > 0 then env.packedArgs else .ok []

/-- Sign / send / wait tail of `DeployContract` (part_002 lines 312-358):
sign the contract-creation transaction, submit it, and wait for the
receipt; a failed receipt wait yields a hash-only result with no error,
a receipt yields the fully populated result with the ETH cost. -/
def broadcastAndWait (env : DeployEnv) (req : DeploymentRequest)
    (nonce gasPrice : Nat) (payload : List Nat) (chainId : Int) :
    Except String DeploymentResult × List Effect :=
  match env.signOk with
  | .error e =>
    (.error ("failed to sign transaction: " ++ e),
     [.compileC req.contractCode, .getKey, .getNonce, .getGasPrice,
      .signTx nonce req.gasLimit gasPrice payload chainId])
  | .ok _ =>
    match env.sendOk with
    | .error e =>
      (.error ("failed to send transaction: " ++ e),
       [.compileC req.contractCode, .getKey, .getNonce, .getGasPrice,
        .signTx nonce req.gasLimit gasPrice payload chainId, .sendTx])
    | .ok _ =>
      match env.waitMined with
      | .error _ =>
        (.ok { txHash := "0x" ++ env.txHashHex,
               contractAddress := "", blockNumber := 0,
               gasUsed := 0, gasPrice := none, cost := 0 },
         [.compileC req.contractCode, .getKey, .getNonce, .getGasPrice,
          .signTx nonce req.gasLimit gasPrice payload chainId,
          .sendTx, .waitReceipt])
      | .ok r =>
        (.ok { txHash := "0x" ++ env.txHashHex,
               contractAddress := r.contractAddress,
               blockNumber := r.blockNumber,
               gasUsed := r.gasUsed,
               gasPrice := some gasPrice,
               cost := deployCostEth gasPrice r.gasUsed },
         [.compileC req.contractCode, .getKey, .getNonce, .getGasPrice,
          .signTx nonce req.gasLimit gasPrice payload chainId,
          .sendTx, .waitReceipt])

/-- Transaction-builder stage of `DeployContract` (part_002 lines 245-312):
resolve the signing key and the chain ID, fetch the pending nonce and the
suggested gas price, parse and ABI-encode the constructor arguments, build
the payload, then hand over to `broadcastAndWait`. -/
def buildAndSubmit (env : DeployEnv) (req : DeploymentRequest)
    (bytecode : List Nat) : Except String DeploymentResult × List Effect :=
  match env.privateKey with
  | .error e =>
    (.error ("failed to get private key: " ++ e),
     [.compileC req.contractCode, .getKey])
  | .ok _ =>
    match env.pendingNonce with
    | .error e =>
      (.error ("failed to get nonce: " ++ e),
       [.compileC req.contractCode, .getKey, .getNonce])
    | .ok nonce =>
      match env.suggestGasPrice with
      | .error e =>
        (.error ("failed to suggest gas price: " ++ e),
         [.compileC req.contractCode, .getKey, .getNonce, .getGasPrice])
      | .ok gasPrice =>
        match parseCtorArgs env req with
        | .error e =>
          (.error ("failed to parse constructor arguments: " ++ e),
           [.compileC req.contractCode, .getKey, .getNonce, .getGasPrice])
        | .ok args =>
          match encodeCtorArgs env args with
          | .error e =>
            (.error ("failed to encode constructor arguments: " ++ e),
             [.compileC req.contractCode, .getKey, .getNonce, .getGasPrice])
          | .ok enc =>
            broadcastAndWait env req nonce gasPrice
              (buildPayload bytecode args enc)
              (resolveChainId req.chainID env.connectorChainId)

/-- Embedding of `Client.DeployContract` (part_002 lines 186-358): compile,
select an artifact, parse its ABI, check for nonempty bytecode, then run
the transaction-builder and broadcast stages.  Returns the result together
with the trace of external steps performed. -/
def deployContract (env : DeployEnv) (req : DeploymentRequest) :
    Except String DeploymentResult × List Effect :=
  match env.compileResult with
  | .error e => (.error ("compilation failed: " ++ e), [.compileC req.contractCode])
  | .ok contracts =>
    if contracts.length = 0 then
      (.error "no contracts found in source code", [.compileC req.contractCode])
    else
      match selectContract (hintOf req) contracts with
      | none => (.error "no contracts found in source code", [.compileC req.contractCode])
      | some sel =>
        match env.abiParse with
        | .error e => (.error ("failed to parse ABI: " ++ e), [.compileC req.contractCode])
        | .ok _ =>
          if sel.2.code.length = 0 then
            (.error "empty bytecode", [.compileC req.contractCode])
          else
            buildAndSubmit env req sel.2.code

/-- Receipt-lookup outcome: Go distinguishes `ethereum.NotFound` (the
transaction is still pending) from other transport errors. -/
inductive ReceiptErr where
  | notFound
  | other (msg : String)
  deriving Repr, DecidableEq

/-- Outcomes of the chain calls `GetTransactionStatus` makes: receipt by
hash, current head block number (`header.Number.Uint64()`), and the gas
price of the transaction fetched by hash. -/
structure StatusEnv where
  transactionReceipt : Except ReceiptErr Receipt
  headNumber : Except String Nat
  txGasPrice : Except String Nat

/-- Embedding of `Client.GetTransactionStatus` (part_002 lines 386-445):
no receipt means `pending` with zero confirmations (not an error); with a
receipt, confirmations are the wrapping `uint64` difference between the
head block and the receipt's block, the cost is recomputed from the
transaction's gas price, and the status flag `1` means `success`, anything
else `failed`. -/
def getTransactionStatus (env : StatusEnv) : Except String TransactionStatus :=
  match env.transactionReceipt with
  | .error .notFound =>
    .ok { status := "pending", blockNumber := 0, confirmations := 0,
          gasUsed := 0, cost := 0 }
  | .error (.other e) => .error ("failed to get transaction receipt: " ++ e)
  | .ok receipt =>
    match env.headNumber with
    | .error e => .error ("failed to get current block header: " ++ e)
    | .ok head =>
      let confirmations := u64sub head receipt.blockNumber
      match env.txGasPrice with
      | .error e => .error ("failed to get transaction: " ++ e)
      | .ok gasPrice =>
        .ok { status := if receipt.status = 1 then "success" else "failed",
              blockNumber := receipt.blockNumber,
              confirmations := confirmations,
              gasUsed := receipt.gasUsed,
              cost := statusCostEth gasPrice receipt.gasUsed }

/-- Outcomes of the external calls `VerifyContractSource` makes:
compilation of the submitted source and `CodeAt` for the deployed
bytecode. -/
structure VerifyEnv where
  compileResult : Except String (List (String × Artifact))
  codeAt : Except String (List Nat)

/-- Embedding of `Client.VerifyContractSource` (part_002 lines 509-548):
recompile the source, fetch the deployed bytecode, and report a match when
the deployed bytecode is nonempty and some artifact's bytecode is a byte
prefix of it (first match wins); a mismatch is the value `false`, not an
error. -/
def verifyContractSource (env : VerifyEnv) : Except String Bool :=
  match env.compileResult with
  | .error e => .error ("compilation failed: " ++ e)
  | .ok contracts =>
    match env.codeAt with
    | .error e => .error ("failed to get deployed bytecode: " ++ e)
    | .ok deployed =>
      .ok (contracts.any
        (fun c => decide (0 < deployed.length) && c.2.code.isPrefixOf deployed))

end Eth

namespace Eth

/-! Helper lemmas about the wrapping `uint64` subtraction. -/

theorem u64sub_of_le (a b : Nat) (hb : b ≤ a) (ha : a < 2 ^ 64) :
    u64sub a b = a - b := by
  unfold u64sub
  have h1 : 2 ^ 64 + a - b = 2 ^ 64 + (a - b) := by omega
  rw [h1, Nat.add_mod_left]
  exact Nat.mod_eq_of_lt (by omega)

theorem u64sub_wrap (a b : Nat) (hab : a < b) (hb : b < 2 ^ 64) :
    u64sub a b = 2 ^ 64 - (b - a) := by
  unfold u64sub
  have h1 : 2 ^ 64 + a - b = 2 ^ 64 - (b - a) := by omega
  rw [h1]
  exact Nat.mod_eq_of_lt (by omega)

set_option maxRecDepth 4000 in
/-- C1: when the receipt wait after a successful submission fails (timeout
included), `deployContract` returns, with no error, a `DeploymentResult`
holding only the (nonempty) transaction hash: address empty, block number,
gas used and cost zero. -/
theorem deployContract_timeout_hash_only
    (cs : List (String × Artifact)) (req : DeploymentRequest)
    (nonce gp : Nat) (args : List String) (enc : List Nat)
    (hx e : String) (conn : Int) (sel : String × Artifact)
    (hlen : cs.length ≠ 0)
    (hsel : selectContract (hintOf req) cs = some sel)
    (hcode : sel.2.code.length ≠ 0) :
    (deployContract
      { compileResult := .ok cs, abiParse := .ok (), privateKey := .ok (),
        pendingNonce := .ok nonce, suggestGasPrice := .ok gp,
        parsedArgs := .ok args, packedArgs := .ok enc,
        signOk := .ok (), sendOk := .ok (), waitMined := .error e,
        txHashHex := hx, connectorChainId := conn } req).1 =
      Except.ok { txHash := "0x" ++ hx, contractAddress := "", blockNumber := 0,
                  gasUsed := 0, gasPrice := none, cost := 0 } ∧
    ("0x" ++ hx) ≠ "" := by
  constructor
  · unfold deployContract
    dsimp only
    rw [if_neg hlen, hsel]
    dsimp only
    rw [if_neg hcode]
    unfold buildAndSubmit
    dsimp only
    unfold parseCtorArgs
    by_cases hc : req.constructorArguments = ""
    · rw [if_pos hc]
      dsimp only
      unfold encodeCtorArgs
      norm_num
      unfold broadcastAndWait
      dsimp only
    · rw [if_neg hc]
      dsimp only
      unfold encodeCtorArgs
      by_cases ha : args.length > 0
      · rw [if_pos ha]
        dsimp only
        unfold broadcastAndWait
        dsimp only
      · rw [if_neg ha]
        dsimp only
        unfold broadcastAndWait
        dsimp only
  · intro h
    have h2 := congrArg String.length h
    rw [String.length_append] at h2
    rw [show ("0x").length = 2 from rfl, show ("").length = 0 from rfl] at h2
    omega

theorem deployContract_timeout_hash_only_witness :
    (deployContract
      { compileResult := .ok [("A", Artifact.mk [7])], abiParse := .ok (),
        privateKey := .ok (), pendingNonce := .ok 1, suggestGasPrice := .ok 2,
        parsedArgs := .ok [], packedArgs := .ok [],
        signOk := .ok (), sendOk := .ok (), waitMined := .error "timeout",
        txHashHex := "ab", connectorChainId := 5 }
      { contractCode := "pragma", constructorArguments := "", chainID := 0,
        gasLimit := 100, metadataContractName := none }).1 =
      Except.ok { txHash := "0x" ++ "ab", contractAddress := "", blockNumber := 0,
                  gasUsed := 0, gasPrice := none, cost := 0 } ∧
    ("0x" ++ "ab") ≠ "" :=
  deployContract_timeout_hash_only [("A", Artifact.mk [7])]
    { contractCode := "pragma", constructorArguments := "", chainID := 0,
      gasLimit := 100, metadataContractName := none }
    1 2 [] [] "ab" "timeout" 5 ("A", Artifact.mk [7])
    (by decide) rfl (by decide)

/-- C2: `getTransactionStatus` returns `pending` with zero confirmations
and no error when no receipt exists; with a receipt (and reachable node)
it returns `success` exactly when the receipt status flag is 1 and
`failed` otherwise, with confirmations equal to the current head block
minus the receipt's block number. -/
theorem getTransactionStatus_pending_and_mined
    (envP env : StatusEnv) (r : Receipt) (head gp : Nat)
    (hp : envP.transactionReceipt = .error .notFound)
    (hr : env.transactionReceipt = .ok r)
    (hh : env.headNumber = .ok head)
    (hg : env.txGasPrice = .ok gp)
    (hb : r.blockNumber ≤ head) (hw : head < 2 ^ 64) :
    getTransactionStatus envP =
      .ok { status := "pending", blockNumber := 0, confirmations := 0,
            gasUsed := 0, cost := 0 } ∧
    getTransactionStatus env =
      .ok { status := if r.status = 1 then "success" else "failed",
            blockNumber := r.blockNumber,
            confirmations := head - r.blockNumber,
            gasUsed := r.gasUsed,
            cost := statusCostEth gp r.gasUsed } := by
  constructor
  · unfold getTransactionStatus
    rw [hp]
  · unfold getTransactionStatus
    rw [hr, hh, hg]
    dsimp only
    rw [u64sub_of_le head r.blockNumber hb hw]

theorem getTransactionStatus_pending_and_mined_witness :
    getTransactionStatus ⟨.error .notFound, .ok 0, .ok 0⟩ =
      .ok { status := "pending", blockNumber := 0, confirmations := 0,
            gasUsed := 0, cost := 0 } ∧
    getTransactionStatus ⟨.ok (Receipt.mk 1 5 21000 "0xC"), .ok 9, .ok 3⟩ =
      .ok { status := if (Receipt.mk 1 5 21000 "0xC").status = 1
                      then "success" else "failed",
            blockNumber := (Receipt.mk 1 5 21000 "0xC").blockNumber,
            confirmations := 9 - (Receipt.mk 1 5 21000 "0xC").blockNumber,
            gasUsed := (Receipt.mk 1 5 21000 "0xC").gasUsed,
            cost := statusCostEth 3 (Receipt.mk 1 5 21000 "0xC").gasUsed } :=
  getTransactionStatus_pending_and_mined
    ⟨.error .notFound, .ok 0, .ok 0⟩
    ⟨.ok (Receipt.mk 1 5 21000 "0xC"), .ok 9, .ok 3⟩
    (Receipt.mk 1 5 21000 "0xC") 9 3 rfl rfl rfl rfl
    (by decide) (by decide)

/-- C10: with a receipt whose block number exceeds the current head block,
`getTransactionStatus` reports, without error, the wrapped `uint64`
difference `2 ^ 64 - (blockNumber - head)` as the confirmation count — an
enormous nonzero value instead of zero or an error. -/
theorem getTransactionStatus_confirmations_wrap
    (env : StatusEnv) (r : Receipt) (head gp : Nat)
    (hr : env.transactionReceipt = .ok r)
    (hh : env.headNumber = .ok head)
    (hg : env.txGasPrice = .ok gp)
    (hlt : head < r.blockNumber) (hb : r.blockNumber < 2 ^ 64) :
    ∃ s, getTransactionStatus env = .ok s ∧
      s.confirmations = 2 ^ 64 - (r.blockNumber - head) ∧
      s.confirmations ≠ 0 ∧
      2 ^ 64 ≤ s.confirmations + r.blockNumber := by
  refine ⟨{ status := if r.status = 1 then "success" else "failed",
            blockNumber := r.blockNumber,
            confirmations := u64sub head r.blockNumber,
            gasUsed := r.gasUsed,
            cost := statusCostEth gp r.gasUsed }, ?_, ?_, ?_, ?_⟩
  · unfold getTransactionStatus
    rw [hr, hh, hg]
  · exact u64sub_wrap head r.blockNumber hlt hb
  · dsimp only
    rw [u64sub_wrap head r.blockNumber hlt hb]
    omega
  · dsimp only
    rw [u64sub_wrap head r.blockNumber hlt hb]
    omega

theorem getTransactionStatus_confirmations_wrap_witness :
    ∃ s, getTransactionStatus ⟨.ok (Receipt.mk 1 100 21000 "0xC"), .ok 90, .ok 5⟩ =
        .ok s ∧
      s.confirmations = 2 ^ 64 - ((Receipt.mk 1 100 21000 "0xC").blockNumber - 90) ∧
      s.confirmations ≠ 0 ∧
      2 ^ 64 ≤ s.confirmations + (Receipt.mk 1 100 21000 "0xC").blockNumber :=
  getTransactionStatus_confirmations_wrap
    ⟨.ok (Receipt.mk 1 100 21000 "0xC"), .ok 90, .ok 5⟩
    (Receipt.mk 1 100 21000 "0xC") 90 5 rfl rfl rfl
    (by decide) (by norm_num)

set_option maxRecDepth 4000 in
/-- C6: on the deploy receipt path and in the status poller the reported
cost is `gasUsed × gasPrice / 10 ^ 18`, and the two cost computations
(`deployCostEth`, `statusCostEth`) are identical functions. -/
theorem cost_gasUsed_times_gasPrice
    (cs : List (String × Artifact)) (req : DeploymentRequest)
    (nonce gp : Nat) (args : List String) (enc : List Nat)
    (hx : String) (conn : Int) (sel : String × Artifact) (r : Receipt)
    (hlen : cs.length ≠ 0)
    (hsel : selectContract (hintOf req) cs = some sel)
    (hcode : sel.2.code.length ≠ 0) :
    (deployContract
      { compileResult := .ok cs, abiParse := .ok (), privateKey := .ok (),
        pendingNonce := .ok nonce, suggestGasPrice := .ok gp,
        parsedArgs := .ok args, packedArgs := .ok enc,
        signOk := .ok (), sendOk := .ok (), waitMined := .ok r,
        txHashHex := hx, connectorChainId := conn } req).1 =
      Except.ok { txHash := "0x" ++ hx, contractAddress := r.contractAddress,
                  blockNumber := r.blockNumber, gasUsed := r.gasUsed,
                  gasPrice := some gp,
                  cost := (r.gasUsed * gp : ℚ) / 10 ^ 18 } ∧
    (∀ senv : StatusEnv, ∀ rr : Receipt, ∀ head tgp : Nat,
      senv.transactionReceipt = .ok rr → senv.headNumber = .ok head →
      senv.txGasPrice = .ok tgp →
      ∃ s, getTransactionStatus senv = .ok s ∧
        s.cost = (rr.gasUsed * tgp : ℚ) / 10 ^ 18) ∧
    (∀ g p : Nat, deployCostEth p g = statusCostEth p g) := by
  refine ⟨?_, ?_, fun g p => rfl⟩
  · have hcost : deployCostEth gp r.gasUsed = (r.gasUsed * gp : ℚ) / 10 ^ 18 := by
      unfold deployCostEth
      ring
    unfold deployContract
    dsimp only
    rw [if_neg hlen, hsel]
    dsimp only
    rw [if_neg hcode]
    unfold buildAndSubmit
    dsimp only
    unfold parseCtorArgs
    by_cases hc : req.constructorArguments = ""
    · rw [if_pos hc]
      dsimp only
      unfold encodeCtorArgs
      rw [if_neg (by decide)]
      unfold broadcastAndWait
      dsimp only
      rw [hcost]
    · rw [if_neg hc]
      dsimp only
      unfold encodeCtorArgs
      by_cases ha : args.length > 0
      · rw [if_pos ha]
        dsimp only
        unfold broadcastAndWait
        dsimp only
        rw [hcost]
      · rw [if_neg ha]
        dsimp only
        unfold broadcastAndWait
        dsimp only
        rw [hcost]
  · intro senv rr head tgp h1 h2 h3
    refine ⟨{ status := if rr.status = 1 then "success" else "failed",
              blockNumber := rr.blockNumber,
              confirmations := u64sub head rr.blockNumber,
              gasUsed := rr.gasUsed,
              cost := statusCostEth tgp rr.gasUsed }, ?_, ?_⟩
    · unfold getTransactionStatus
      rw [h1, h2, h3]
    · dsimp only
      unfold statusCostEth
      ring

theorem cost_gasUsed_times_gasPrice_witness :
    (deployContract
      { compileResult := .ok [("A", Artifact.mk [7])], abiParse := .ok (),
        privateKey := .ok (), pendingNonce := .ok 1, suggestGasPrice := .ok 2,
        parsedArgs := .ok [], packedArgs := .ok [],
        signOk := .ok (), sendOk := .ok (),
        waitMined := .ok (Receipt.mk 1 12 21000 "0xAddr"),
        txHashHex := "ab", connectorChainId := 5 }
      { contractCode := "pragma", constructorArguments := "", chainID := 0,
        gasLimit := 100, metadataContractName := none }).1 =
      Except.ok { txHash := "0x" ++ "ab",
                  contractAddress := (Receipt.mk 1 12 21000 "0xAddr").contractAddress,
                  blockNumber := (Receipt.mk 1 12 21000 "0xAddr").blockNumber,
                  gasUsed := (Receipt.mk 1 12 21000 "0xAddr").gasUsed,
                  gasPrice := some 2,
                  cost := ((Receipt.mk 1 12 21000 "0xAddr").gasUsed * 2 : ℚ) / 10 ^ 18 } ∧
    (∀ senv : StatusEnv, ∀ rr : Receipt, ∀ head tgp : Nat,
      senv.transactionReceipt = .ok rr → senv.headNumber = .ok head →
      senv.txGasPrice = .ok tgp →
      ∃ s, getTransactionStatus senv = .ok s ∧
        s.cost = (rr.gasUsed * tgp : ℚ) / 10 ^ 18) ∧
    (∀ g p : Nat, deployCostEth p g = statusCostEth p g) :=
  cost_gasUsed_times_gasPrice [("A", Artifact.mk [7])]
    { contractCode := "pragma", constructorArguments := "", chainID := 0,
      gasLimit := 100, metadataContractName := none }
    1 2 [] [] "ab" 5 ("A", Artifact.mk [7]) (Receipt.mk 1 12 21000 "0xAddr")
    (by decide) rfl (by decide)

/-- C3 counterexample: a deployment request with chain identifier 0 routed
through `Service.DeployContract` has chain ID 1 (Ethereum mainnet)
substituted before the eth client runs its own resolution, so against a
connector whose startup-resolved identity is 11155111 the bound chain ID
is 1, not the connector's default — refuting the claim that a zero chain
identifier deploys against the connector's default chain. -/
theorem chainId_zero_not_connector_default :
    serviceChainId 0 = 1 ∧
    resolveChainId (serviceChainId 0) 11155111 = 1 ∧
    resolveChainId (serviceChainId 0) 11155111 ≠ 11155111 := by
  decide

/-- C3 amended: the eth client binds the caller-supplied chain identifier
when nonzero and the connector's startup-resolved identity when given 0;
but the contract service replaces a zero request chain ID with 1 before
invoking the client, so a zero-chain-ID request routed through the service
binds chain ID 1, not the connector's default (unless that default is 1). -/
theorem chainId_resolution
    (req conn : Int) :
    (req ≠ 0 → resolveChainId req conn = req) ∧
    resolveChainId 0 conn = conn ∧
    (req ≠ 0 → serviceChainId req = req) ∧
    serviceChainId 0 = 1 ∧
    (conn ≠ 1 → resolveChainId (serviceChainId 0) conn ≠ conn) := by
  refine ⟨fun h => ?_, ?_, fun h => ?_, rfl, fun h => ?_⟩
  · unfold resolveChainId
    rw [if_neg h]
  · unfold resolveChainId
    rw [if_pos rfl]
  · unfold serviceChainId
    rw [if_neg h]
  · unfold serviceChainId resolveChainId
    norm_num
    intro h2
    exact h h2.symm

theorem chainId_resolution_witness :
    resolveChainId 5 7 = 5 ∧
    resolveChainId 0 7 = 7 ∧
    serviceChainId 5 = 5 ∧
    serviceChainId 0 = 1 ∧
    resolveChainId (serviceChainId 0) 7 ≠ 7 :=
  ⟨(chainId_resolution 5 7).1 (by decide),
   (chainId_resolution 5 7).2.1,
   (chainId_resolution 5 7).2.2.1 (by decide),
   (chainId_resolution 5 7).2.2.2.1,
   (chainId_resolution 5 7).2.2.2.2 (by decide)⟩

/-- C4 counterexample: when the deployed bytecode is empty and some
artifact's bytecode is also empty, the artifact's bytecode IS a byte
prefix of the deployed bytecode, yet `verifyContractSource` returns
`false` because of its nonemptiness guard — refuting "true exactly when
some compiled artifact's bytecode is a byte prefix of the deployed
bytecode". -/
theorem verify_prefix_guard_counterexample :
    verifyContractSource
      { compileResult := .ok [("Empty", Artifact.mk [])], codeAt := .ok [] } =
      .ok false ∧
    (Artifact.mk []).code.isPrefixOf ([] : List Nat) = true :=
  ⟨rfl, rfl⟩

/-- C4 amended: `verify` returns `true` exactly when the deployed bytecode
is NONEMPTY and some compiled artifact's bytecode is a byte prefix of it
(first match wins); a mismatch is the value `false` with no error, and an
error arises only from compilation failure or bytecode-fetch failure. -/
theorem verifyContractSource_characterization
    (cs : List (String × Artifact)) (deployed : List Nat) (e : String)
    (cA : Except String (List Nat)) :
    (verifyContractSource { compileResult := .ok cs, codeAt := .ok deployed } =
      .ok (cs.any fun c => decide (0 < deployed.length) && c.2.code.isPrefixOf deployed)) ∧
    (verifyContractSource { compileResult := .ok cs, codeAt := .ok deployed } =
        .ok true ↔
      deployed ≠ [] ∧ ∃ p ∈ cs, p.2.code <+: deployed) ∧
    (verifyContractSource { compileResult := .error e, codeAt := cA } =
      .error ("compilation failed: " ++ e)) ∧
    (verifyContractSource { compileResult := .ok cs, codeAt := .error e } =
      .error ("failed to get deployed bytecode: " ++ e)) := by
  refine ⟨rfl, ?_, rfl, rfl⟩
  unfold verifyContractSource
  simp only [Except.ok.injEq, List.any_eq_true, Bool.and_eq_true, decide_eq_true_eq,
    List.isPrefixOf_iff_prefix]
  constructor
  · rintro ⟨p, hp, hlen, hpre⟩
    exact ⟨by simpa using List.length_pos.mp hlen, p, hp, hpre⟩
  · rintro ⟨hne, p, hp, hpre⟩
    exact ⟨p, hp, List.length_pos.mpr hne, hpre⟩

/-- C9: any artifact with empty bytecode makes `verifyContractSource`
return `true` against every address holding nonempty code, since the
empty byte sequence is a prefix of every nonempty deployed bytecode. -/
theorem verifyContractSource_empty_artifact_always_true
    (cs : List (String × Artifact)) (deployed : List Nat)
    (a : String × Artifact) (ha : a ∈ cs) (hcode : a.2.code = [])
    (hd : deployed ≠ []) :
    verifyContractSource { compileResult := .ok cs, codeAt := .ok deployed } =
      .ok true := by
  unfold verifyContractSource
  simp only [Except.ok.injEq, List.any_eq_true, Bool.and_eq_true, decide_eq_true_eq,
    List.isPrefixOf_iff_prefix]
  exact ⟨a, ha, List.length_pos.mpr hd, by rw [hcode]; exact List.nil_prefix⟩

theorem verifyContractSource_empty_artifact_always_true_witness :
    verifyContractSource
      { compileResult := .ok [("IFace", Artifact.mk [])], codeAt := .ok [1, 2, 3] } =
      .ok true :=
  verifyContractSource_empty_artifact_always_true
    [("IFace", Artifact.mk [])] [1, 2, 3] ("IFace", Artifact.mk [])
    (by decide) rfl (by decide)

/-- C7: when compilation fails or yields zero contracts, `deployContract`
stops with an error whose trace holds only the compile step: no key
resolution, nonce fetch, gas-price fetch, signing or submission occurs. -/
theorem deployContract_compile_failure_short_circuits
    (env : DeployEnv) (req : DeploymentRequest) (e : String)
    (h : env.compileResult = .error e ∨ env.compileResult = .ok []) :
    (∃ msg, deployContract env req =
      (.error msg, [Effect.compileC req.contractCode])) ∧
    ∀ ef ∈ (deployContract env req).2, ef = Effect.compileC req.contractCode := by
  have hres : ∃ msg, deployContract env req =
      (.error msg, [Effect.compileC req.contractCode]) := by
    rcases h with h | h
    · exact ⟨"compilation failed: " ++ e, by unfold deployContract; rw [h]⟩
    · refine ⟨"no contracts found in source code", ?_⟩
      unfold deployContract
      rw [h]
      rfl
  obtain ⟨msg, hmsg⟩ := hres
  refine ⟨⟨msg, hmsg⟩, ?_⟩
  rw [hmsg]
  intro ef hef
  simpa using hef

theorem deployContract_compile_failure_short_circuits_witness :
    (∃ msg, deployContract
      { compileResult := .error "boom", abiParse := .ok (), privateKey := .ok (),
        pendingNonce := .ok 0, suggestGasPrice := .ok 0,
        parsedArgs := .ok [], packedArgs := .ok [],
        signOk := .ok (), sendOk := .ok (), waitMined := .error "x",
        txHashHex := "h", connectorChainId := 1 }
      { contractCode := "bad", constructorArguments := "", chainID := 0,
        gasLimit := 0, metadataContractName := none } =
      (.error msg, [Effect.compileC "bad"])) ∧
    ∀ ef ∈ (deployContract
      { compileResult := .error "boom", abiParse := .ok (), privateKey := .ok (),
        pendingNonce := .ok 0, suggestGasPrice := .ok 0,
        parsedArgs := .ok [], packedArgs := .ok [],
        signOk := .ok (), sendOk := .ok (), waitMined := .error "x",
        txHashHex := "h", connectorChainId := 1 }
      { contractCode := "bad", constructorArguments := "", chainID := 0,
        gasLimit := 0, metadataContractName := none }).2,
      ef = Effect.compileC "bad" :=
  deployContract_compile_failure_short_circuits
    { compileResult := .error "boom", abiParse := .ok (), privateKey := .ok (),
      pendingNonce := .ok 0, suggestGasPrice := .ok 0,
      parsedArgs := .ok [], packedArgs := .ok [],
      signOk := .ok (), sendOk := .ok (), waitMined := .error "x",
      txHashHex := "h", connectorChainId := 1 }
    { contractCode := "bad", constructorArguments := "", chainID := 0,
      gasLimit := 0, metadataContractName := none }
    "boom" (Or.inl rfl)

/-- Helper: `List.find?` returns the element at the first index satisfying
the predicate when every earlier index fails it. -/
theorem find?_first_match {α : Type} (p : α → Bool) :
    ∀ (l : List α) (i : Nat) (hi : i < l.length),
      p (l.get ⟨i, hi⟩) = true →
      (∀ j (hj : j < l.length), j < i → p (l.get ⟨j, hj⟩) = false) →
      l.find? p = some (l.get ⟨i, hi⟩)
  | [], i, hi, _, _ => absurd hi (by simp)
  | a :: t, 0, _, hp, _ => by
    have hp2 : p a = true := hp
    show (a :: t).find? p = some a
    rw [List.find?_cons_of_pos _ hp2]
  | a :: t, i + 1, hi, hp, hfirst => by
    have ha : p a = false := by
      have := hfirst 0 (by simp) (Nat.succ_pos i)
      simpa using this
    have ih := find?_first_match p t i (by simpa using hi)
      (by simpa using hp)
      (fun j hj hji => by
        have := hfirst (j + 1) (by simpa using Nat.succ_lt_succ hj)
          (Nat.succ_lt_succ hji)
        simpa using this)
    rw [List.find?_cons_of_neg _ (by simp [ha])]
    exact ih

/-- C8: with a nonempty name hint, `selectContract` picks the first
artifact (in iteration order) whose name contains the hint as a
case-sensitive substring; and for every hint — no hint given (empty
string) and no name matching included — any nonempty artifact list has
some single artifact of the list selected. -/
theorem selectContract_first_hint_match
    (hint : String) (cs : List (String × Artifact)) (i : Nat) (hi : i < cs.length)
    (hmatch : containsSub (cs.get ⟨i, hi⟩).1 hint = true)
    (hfirst : ∀ j (hj : j < cs.length), j < i →
      containsSub (cs.get ⟨j, hj⟩).1 hint = false) :
    (hint ≠ "" → selectContract hint cs = some (cs.get ⟨i, hi⟩)) ∧
    ∀ h2 : String, ∀ cs2 : List (String × Artifact), cs2 ≠ [] →
      ∃ q ∈ cs2, selectContract h2 cs2 = some q := by
  constructor
  · intro hh
    unfold selectContract
    rw [if_neg hh,
      find?_first_match (fun p => containsSub p.1 hint) cs i hi hmatch hfirst]
  · intro h2 cs2 hne
    rcases cs2 with _ | ⟨a, t⟩
    · exact absurd rfl hne
    · by_cases hh2 : h2 = ""
      · exact ⟨a, List.mem_cons_self a t,
          by unfold selectContract; rw [if_pos hh2]; rfl⟩
      · rcases hf : (a :: t).find? (fun p => containsSub p.1 h2) with _ | p
        · exact ⟨a, List.mem_cons_self a t,
            by unfold selectContract; rw [if_neg hh2, hf]; rfl⟩
        · exact ⟨p, List.mem_of_find?_eq_some hf,
            by unfold selectContract; rw [if_neg hh2, hf]⟩

theorem selectContract_first_hint_match_witness :
    selectContract "Tok"
      [("Foo", Artifact.mk [1]), ("MyToken", Artifact.mk [2]),
       ("TokenX", Artifact.mk [3])] =
      some ("MyToken", Artifact.mk [2]) ∧
    ∃ q ∈ [("Foo", Artifact.mk [1]), ("Bar", Artifact.mk [2])],
      selectContract "" [("Foo", Artifact.mk [1]), ("Bar", Artifact.mk [2])] =
        some q :=
  ⟨(selectContract_first_hint_match "Tok"
      [("Foo", Artifact.mk [1]), ("MyToken", Artifact.mk [2]),
       ("TokenX", Artifact.mk [3])]
      1 (by decide) (by decide) (by decide)).1 (by decide),
   (selectContract_first_hint_match "Tok"
      [("Foo", Artifact.mk [1]), ("MyToken", Artifact.mk [2]),
       ("TokenX", Artifact.mk [3])]
      1 (by decide) (by decide) (by decide)).2 ""
     [("Foo", Artifact.mk [1]), ("Bar", Artifact.mk [2])] (by decide)⟩

set_option maxRecDepth 4000 in
/-- C5: the payload of the signed deployment transaction is the selected
artifact's bytecode with the ABI encoding of the constructor arguments
appended when at least one argument is given, and the bytecode unchanged
when no constructor arguments are given. -/
theorem deployContract_payload
    (cs : List (String × Artifact)) (req : DeploymentRequest)
    (nonce gp : Nat) (args : List String) (enc : List Nat)
    (hx : String) (conn : Int) (sel : String × Artifact)
    (w : Except String Receipt)
    (hlen : cs.length ≠ 0)
    (hsel : selectContract (hintOf req) cs = some sel)
    (hcode : sel.2.code.length ≠ 0) :
    (req.constructorArguments ≠ "" → args ≠ [] →
      (deployContract
        { compileResult := .ok cs, abiParse := .ok (), privateKey := .ok (),
          pendingNonce := .ok nonce, suggestGasPrice := .ok gp,
          parsedArgs := .ok args, packedArgs := .ok enc,
          signOk := .ok (), sendOk := .ok (), waitMined := w,
          txHashHex := hx, connectorChainId := conn } req).2 =
        [Effect.compileC req.contractCode, .getKey, .getNonce, .getGasPrice,
         .signTx nonce req.gasLimit gp (sel.2.code ++ enc)
           (resolveChainId req.chainID conn),
         .sendTx, .waitReceipt]) ∧
    (req.constructorArguments = "" ∨ args = [] →
      (deployContract
        { compileResult := .ok cs, abiParse := .ok (), privateKey := .ok (),
          pendingNonce := .ok nonce, suggestGasPrice := .ok gp,
          parsedArgs := .ok args, packedArgs := .ok enc,
          signOk := .ok (), sendOk := .ok (), waitMined := w,
          txHashHex := hx, connectorChainId := conn } req).2 =
        [Effect.compileC req.contractCode, .getKey, .getNonce, .getGasPrice,
         .signTx nonce req.gasLimit gp sel.2.code
           (resolveChainId req.chainID conn),
         .sendTx, .waitReceipt]) := by
  constructor
  · intro hc ha
    have ha2 : args.length > 0 := by
      cases args
      · exact absurd rfl ha
      · simp
    unfold deployContract
    dsimp only
    rw [if_neg hlen, hsel]
    dsimp only
    rw [if_neg hcode]
    unfold buildAndSubmit
    dsimp only
    unfold parseCtorArgs
    rw [if_neg hc]
    dsimp only
    unfold encodeCtorArgs
    rw [if_pos ha2]
    dsimp only
    unfold buildPayload
    rw [if_pos ha2]
    unfold broadcastAndWait
    rcases w with e | r <;> dsimp only
  · intro h
    unfold deployContract
    dsimp only
    rw [if_neg hlen, hsel]
    dsimp only
    rw [if_neg hcode]
    unfold buildAndSubmit
    dsimp only
    unfold parseCtorArgs
    by_cases hc : req.constructorArguments = ""
    · rw [if_pos hc]
      dsimp only
      unfold encodeCtorArgs
      rw [if_neg (by decide)]
      dsimp only
      unfold buildPayload
      rw [if_neg (by decide)]
      unfold broadcastAndWait
      rcases w with e | r <;> dsimp only
    · rcases h with h | h
      · exact absurd h hc
      · rw [if_neg hc]
        dsimp only
        subst h
        unfold encodeCtorArgs
        rw [if_neg (by decide)]
        dsimp only
        unfold buildPayload
        rw [if_neg (by decide)]
        unfold broadcastAndWait
        rcases w with e | r <;> dsimp only

theorem deployContract_payload_witness :
    (deployContract
      { compileResult := .ok [("A", Artifact.mk [7])], abiParse := .ok (),
        privateKey := .ok (), pendingNonce := .ok 1, suggestGasPrice := .ok 2,
        parsedArgs := .ok ["1"], packedArgs := .ok [9, 9],
        signOk := .ok (), sendOk := .ok (), waitMined := .error "t",
        txHashHex := "ab", connectorChainId := 5 }
      { contractCode := "pragma", constructorArguments := "[1]", chainID := 0,
        gasLimit := 100, metadataContractName := none }).2 =
      [Effect.compileC "pragma", .getKey, .getNonce, .getGasPrice,
       .signTx 1 100 2 ((Artifact.mk [7]).code ++ [9, 9]) (resolveChainId 0 5),
       .sendTx, .waitReceipt] :=
  (deployContract_payload [("A", Artifact.mk [7])]
    { contractCode := "pragma", constructorArguments := "[1]", chainID := 0,
      gasLimit := 100, metadataContractName := none }
    1 2 ["1"] [9, 9] "ab" 5 ("A", Artifact.mk [7]) (.error "t")
    (by decide) rfl (by decide)).1 (by decide) (by decide)

end Eth
